import Mathlib

/-!
Shallow embedding of the PlayLink booking backend (JavaScript/Express + MySQL)
for specification checking.

Conventions of the embedding:
* Money and fractional hours are exact rationals (`ℚ`); the JS code uses
  IEEE doubles, but every constant appearing in the claims is exactly
  representable, and the arithmetic (`+`, `*`, `/`, comparisons,
  `Math.round(x*100)/100`) is modelled exactly.
* Times (booking start/end, "now") are minutes on a single global axis,
  as rationals; `hoursRemaining = (start - now) / 60` mirrors the JS
  millisecond arithmetic `(start - now) / (1000*60*60)` up to the unit
  change.
* The MySQL tables are lists of rows inside a `DB` structure; SQL
  `SELECT ... WHERE` becomes `List.filter` / `List.find?`, `UPDATE`
  becomes `List.map` with a guard, `INSERT` appends.
* A statement sequence running inside a MySQL transaction with
  `rollback` on error is an `Except`-valued function: `Except.ok`
  carries the committed state, `Except.error` means every write of the
  transaction was rolled back (the caller keeps the pre-state).
  Statements executed *outside* any transaction (autocommit) are applied
  directly; `paySplitShare` below returns the observable state on error
  because its first writes are autocommitted in the source.
-/

attribute [local semireducible] Rat.add Rat.mul Rat.inv Rat.sub

namespace PlayLink

/-- Floor of a rational (the core `Rat` is stored reduced with a positive
denominator, so flooring is floor-division of numerator by denominator). -/
def ratFloor (x : ℚ) : Int := x.num.fdiv x.den

/-- JavaScript `Math.round` (half towards +∞): `Math.round x = ⌊x + 1/2⌋`,
exact on rationals. -/
def jsRound (x : ℚ) : Int := ratFloor (x + 1/2)

/-- `Math.round(x * 100) / 100` — rounding to 2 decimals as done in the source. -/
def round2 (x : ℚ) : ℚ := (jsRound (x * 100) : ℚ) / 100

/-- Booking status strings used in the `bookings.status` column. -/
inductive BStatus where
  | pending
  | confirmed
  | blocked
  | cancelled
  | completed
deriving DecidableEq, Repr

/-- Participant payment status strings (`booking_participants.payment_status`). -/
inductive PStatus where
  | pendingPay
  | paid
  | refunded
  | cancelledPay
deriving DecidableEq, Repr

/-- Payment row status strings (`payments.status`). -/
inductive PayState where
  | pendingPmt
  | succeeded
  | refundedPmt
deriving DecidableEq, Repr

/-- The distinct error conditions thrown by the embedded operations
(one constructor per `throw` site / early error return in the source). -/
inductive Err where
  | bookingNotFound
  | unauthorized
  | alreadyCancelled
  | tooLateToCancel
  | insufficientFundsNewWallet
  | insufficientFunds
  | walletNotFound
  | slotTaken
  | slotUnavailable
  | onlyConfirmedReschedule
  | invalid15Min
  | outsideWindow
  | doesNotFit
  | notInFuture
  | paymentNotCompleted
  | participantNotFound
  | alreadyPaid
  | insufficientBalance
  | initiatorNotFound
deriving DecidableEq, Repr

/-- A row of the `venues` table (the columns the embedded operations read). -/
structure Venue where
  venue_id : Nat
  owner_id : Option Nat
  price_per_hour : ℚ
deriving DecidableEq, Repr

/-- A row of the `bookings` table, with the cancellation-policy columns
resolved the way `getBookingWithPolicy`'s LEFT JOIN resolves them
(`refund_percentage` / `hours_before_start` are `NULL` ↦ `none`). -/
structure Booking where
  booking_id : Nat
  venue_id : Nat
  court_id : Option Nat
  created_by : Nat
  booking_start : ℚ
  booking_end : ℚ
  total_amount : ℚ
  status : BStatus
  refund_percentage : Option ℚ
  hours_before_start : Option ℚ
deriving DecidableEq, Repr

/-- A row of the `booking_participants` table. -/
structure Participant where
  booking_id : Nat
  user_id : Nat
  share_amount : ℚ
  is_initiator : Bool
  payment_status : PStatus
deriving DecidableEq, Repr

/-- A row of the `payments` table. -/
structure Payment where
  booking_id : Nat
  payer_id : Nat
  amount : ℚ
  pay_status : PayState
  provider_reference : String
deriving DecidableEq, Repr

/-- A row of the `wallets` table. -/
structure Wallet where
  user_id : Nat
  balance : ℚ
deriving DecidableEq, Repr

/-- A row of the `wallet_transactions` ledger (the audit columns the
claims talk about). -/
structure WTx where
  user_id : Nat
  amount : ℚ
  direction : String
  referenceType : String
deriving DecidableEq, Repr

/-- The database state touched by the embedded operations. -/
structure DB where
  venues : List Venue
  bookings : List Booking
  participants : List Participant
  payments : List Payment
  wallets : List Wallet
  txs : List WTx
deriving DecidableEq, Repr

/-! ## WalletRepository (src/repositories/WalletRepository.js) -/

/-- `getWalletBalance` — `SELECT balance FROM wallets WHERE user_id = ?`,
defaulting to 0 when no row exists. -/
def getWalletBalance (db : DB) (userId : Nat) : ℚ :=
  match db.wallets.find? (fun w => w.user_id = userId) with
  | some w => w.balance
  | none => 0

/-- `updateWalletBalance(conn, userId, amount)` from WalletRepository.js:
creates the wallet when absent (rejecting a debit on a missing wallet),
and for a debit on an existing wallet re-reads the balance and rejects
when `balance + amount < -0.01` (the source's floating-point epsilon
check), otherwise applies `balance = balance + amount`. -/
def updateWalletBalance (db : DB) (userId : Nat) (amount : ℚ) : Except Err DB :=
  match db.wallets.find? (fun w => w.user_id = userId) with
  | none =>
      if amount < 0 then .error .insufficientFundsNewWallet
      else .ok { db with wallets := db.wallets ++ [⟨userId, amount⟩] }
  | some w =>
      if amount < 0 ∧ w.balance + amount < -(1/100) then .error .insufficientFunds
      else
        let updated := db.wallets.map
          (fun x => if x.user_id = userId then { x with balance := x.balance + amount } else x)
        .ok { db with wallets := updated }

/-- `createTransaction(conn, {...})` from WalletRepository.js: looks up the
wallet (error when absent) and appends an immutable ledger row. -/
def createTransaction (db : DB) (userId : Nat) (amount : ℚ)
    (direction : String) (referenceType : String) : Except Err DB :=
  match db.wallets.find? (fun w => w.user_id = userId) with
  | none => .error .walletNotFound
  | some _ => .ok { db with txs := db.txs ++ [⟨userId, amount, direction, referenceType⟩] }

/-- One committed-or-rejected `adjust` step: a failed call leaves the
state unchanged (the statement throws before any write). -/
def applyAdjust (db : DB) (step : Nat × ℚ) : DB :=
  match updateWalletBalance db step.1 step.2 with
  | .ok db2 => db2
  | .error _ => db

/-- Running a whole sequence of `adjust` calls. -/
def runAdjusts (db : DB) (steps : List (Nat × ℚ)) : DB :=
  steps.foldl applyAdjust db

/-- Well-formed wallet table: `user_id` is a primary key, and every balance
satisfies the epsilon bound the source's debit check actually maintains. -/
def walletsWF (db : DB) : Prop :=
  (db.wallets.map (fun w => w.user_id)).Nodup ∧ ∀ w ∈ db.wallets, -(1/100) ≤ w.balance

/-! ## BookingRepository (src/unnamed/part_019, newer revision) -/

/-- `status IN ('CONFIRMED', 'PENDING', 'BLOCKED')`. -/
def activeStatus (s : BStatus) : Bool :=
  decide (s = BStatus.confirmed ∨ s = BStatus.pending ∨ s = BStatus.blocked)

/-- The three-disjunct overlap condition of `hasBookingConflict`'s SQL:
`(booking_start < newEnd AND booking_end > newStart) OR
 (booking_start >= newStart AND booking_start < newEnd) OR
 (booking_end > newStart AND booking_end <= newEnd)`. -/
def overlapCond (newStart newEnd : ℚ) (b : Booking) : Bool :=
  decide ((b.booking_start < newEnd ∧ b.booking_end > newStart) ∨
          (b.booking_start ≥ newStart ∧ b.booking_start < newEnd) ∨
          (b.booking_end > newStart ∧ b.booking_end ≤ newEnd))

/-- `hasBookingConflict(venueId, startDateTime, endDateTime)` from the
booking repository: counts bookings of the venue in an active status
satisfying the overlap disjunction, and returns `count > 0`.  The function
filters on `venue_id` only; it takes no court parameter (call sites that
pass a fourth `courtId` argument have it silently ignored). -/
def hasBookingConflict (db : DB) (venueId : Nat) (newStart newEnd : ℚ) : Bool :=
  db.bookings.any
    (fun b => decide (b.venue_id = venueId) && activeStatus b.status && overlapCond newStart newEnd b)

/-- Whether two resource keys clash according to the specification's words:
a specific court clashes only with the same court, and a venue-wide
booking (`none`) clashes with everything on the venue. -/
def resourcesClash (courtA courtB : Option Nat) : Bool :=
  match courtA, courtB with
  | some c1, some c2 => decide (c1 = c2)
  | _, _ => true

/-- The conflict predicate as the specification states it (court-scoped
resources, simple interval overlap), written from the spec's words to be
compared against the source's `hasBookingConflict`. -/
def specConflict (db : DB) (venueId : Nat) (resource : Option Nat) (newStart newEnd : ℚ) : Bool :=
  db.bookings.any
    (fun b => decide (b.venue_id = venueId) && activeStatus b.status &&
      resourcesClash b.court_id resource &&
      decide (b.booking_start < newEnd ∧ b.booking_end > newStart))

instance {α β : Type} [DecidableEq α] [DecidableEq β] : DecidableEq (Except α β) :=
  fun a b =>
    match a, b with
    | .ok x, .ok y =>
        if h : x = y then .isTrue (congrArg Except.ok h)
        else .isFalse (fun hc => h (Except.ok.inj hc))
    | .error x, .error y =>
        if h : x = y then .isTrue (congrArg Except.error h)
        else .isFalse (fun hc => h (Except.error.inj hc))
    | .ok _, .error _ => .isFalse (fun hc => Except.noConfusion hc)
    | .error _, .ok _ => .isFalse (fun hc => Except.noConfusion hc)

/-! ## Theorems for C1 -/

/-- C1 (counterexample): the claim states that `hasBookingConflict` is
court-scoped — a booking on court 1 should not conflict with a request for
court 2 of the same venue.  On the source, `hasBookingConflict` filters on
`venue_id` only, so a CONFIRMED booking on court 1 of venue 1 over
[10, 20) makes the call for the same interval report a conflict even
though the spec-scoped predicate for court 2 reports none. -/
theorem hasBookingConflict_court_scope_counterexample :
    hasBookingConflict ⟨[], [⟨1, 1, some 1, 7, 10, 20, 100, .confirmed, none, none⟩], [], [], [], []⟩
      1 10 20 = true ∧
    specConflict ⟨[], [⟨1, 1, some 1, 7, 10, 20, 100, .confirmed, none, none⟩], [], [], [], []⟩
      1 (some 2) 10 20 = false := by
  decide

/-- C1 (amended): `hasBookingConflict(venueId, start, end)` returns true
iff some booking **of the venue** (regardless of court) with status in
{CONFIRMED, PENDING, BLOCKED} satisfies `existing.start < newEnd ∧
existing.end > newStart`; the SQL's three overlap disjuncts collapse to
that single overlap condition for well-formed stored intervals. -/
theorem hasBookingConflict_iff_venue_overlap (db : DB) (venueId : Nat) (s e : ℚ)
    (hwf : ∀ b ∈ db.bookings, b.booking_start < b.booking_end) :
    hasBookingConflict db venueId s e = true ↔
      ∃ b ∈ db.bookings, b.venue_id = venueId ∧
        (b.status = .confirmed ∨ b.status = .pending ∨ b.status = .blocked) ∧
        b.booking_start < e ∧ b.booking_end > s := by
  simp only [hasBookingConflict, List.any_eq_true, Bool.and_eq_true, decide_eq_true_eq,
    activeStatus, overlapCond]
  constructor
  · rintro ⟨b, hb, ⟨⟨hv, hst⟩, hov⟩⟩
    refine ⟨b, hb, hv, hst, ?_⟩
    rcases hov with h1 | h2 | h3
    · exact h1
    · exact ⟨h2.2, lt_of_le_of_lt h2.1 (hwf b hb)⟩
    · exact ⟨lt_of_lt_of_le (hwf b hb) h3.2, h3.1⟩
  · rintro ⟨b, hb, hv, hst, hov⟩
    exact ⟨b, hb, ⟨⟨hv, hst⟩, Or.inl hov⟩⟩

/-- Witness for C1's amended theorem at a concrete database. -/
theorem hasBookingConflict_iff_venue_overlap_witness :
    hasBookingConflict ⟨[], [⟨5, 3, none, 7, 60, 120, 100, .pending, none, none⟩], [], [], [], []⟩
      3 0 90 = true :=
  (hasBookingConflict_iff_venue_overlap
      ⟨[], [⟨5, 3, none, 7, 60, 120, 100, .pending, none, none⟩], [], [], [], []⟩
      3 0 90 (by decide)).mpr
    ⟨⟨5, 3, none, 7, 60, 120, 100, .pending, none, none⟩, by decide, by decide,
      by decide, by decide, by decide⟩

/-! ## Theorems for C3 -/

/-- In a key-unique wallet list, a member with the searched key is the
wallet `find?` returns. -/
theorem find_eq_of_key_nodup (l : List Wallet) (uid : Nat) (w y : Wallet)
    (hnd : (l.map (fun x => x.user_id)).Nodup)
    (hf : l.find? (fun x => x.user_id = uid) = some w)
    (hy : y ∈ l) (hyu : y.user_id = uid) : y = w := by
  induction l with
  | nil => cases hy
  | cons a t ih =>
    simp only [List.map_cons, List.nodup_cons] at hnd
    rcases List.mem_cons.mp hy with rfl | hyt
    · simp [List.find?, hyu] at hf
      exact hf
    · by_cases hph : a.user_id = uid
      · exfalso
        apply hnd.1
        rw [hph, ← hyu]
        exact List.mem_map_of_mem (fun x => x.user_id) hyt
      · simp [List.find?, hph] at hf
        exact ih hnd.2 hf hyt

/-- A single `adjust` step (committed or rejected) preserves
well-formedness of the wallet table. -/
theorem applyAdjust_WF (db : DB) (s : Nat × ℚ) (h : walletsWF db) :
    walletsWF (applyAdjust db s) := by
  obtain ⟨hnd, hbal⟩ := h
  unfold applyAdjust updateWalletBalance
  cases hf : db.wallets.find? (fun x => x.user_id = s.1) with
  | none =>
    by_cases hneg : s.2 < 0
    · simp only [hf, if_pos hneg]
      exact ⟨hnd, hbal⟩
    · simp only [hf, if_neg hneg]
      constructor
      · simp only [List.map_append, List.map_cons, List.map_nil]
        rw [List.nodup_append]
        refine ⟨hnd, List.nodup_singleton _, ?_⟩
        intro k hk hk1
        simp only [List.mem_singleton] at hk1
        obtain ⟨x, hx, hxk⟩ := List.mem_map.mp hk
        have := List.find?_eq_none.mp hf x hx
        simp only [decide_eq_true_eq] at this
        exact this (hxk.trans hk1)
      · intro w hw
        rcases List.mem_append.mp hw with hw1 | hw2
        · exact hbal w hw1
        · simp only [List.mem_singleton] at hw2
          subst hw2
          have : (0:ℚ) ≤ s.2 := le_of_not_lt hneg
          linarith
  | some w0 =>
    by_cases hguard : s.2 < 0 ∧ w0.balance + s.2 < -(1/100)
    · simp only [hf, if_pos hguard]
      exact ⟨hnd, hbal⟩
    · simp only [hf, if_neg hguard]
      constructor
      · have : (db.wallets.map
            (fun x => if x.user_id = s.1 then { x with balance := x.balance + s.2 } else x)).map
              (fun x => x.user_id) = db.wallets.map (fun x => x.user_id) := by
          rw [List.map_map]
          apply List.map_congr_left
          intro x _
          by_cases hx : x.user_id = s.1 <;> simp [hx]
        rw [this]
        exact hnd
      · intro x hx
        obtain ⟨y, hy, hyx⟩ := List.mem_map.mp hx
        by_cases hyu : y.user_id = s.1
        · simp only [if_pos hyu] at hyx
          subst hyx
          by_cases hneg : s.2 < 0
          · have hy0 : y = w0 := find_eq_of_key_nodup db.wallets s.1 w0 y hnd hf hy hyu
            have hge : -(1/100) ≤ w0.balance + s.2 := by
              by_contra hcon
              exact hguard ⟨hneg, lt_of_not_le hcon⟩
            simpa [hy0] using hge
          · have h1 : -(1/100) ≤ y.balance := hbal y hy
            have h2 : (0:ℚ) ≤ s.2 := le_of_not_lt hneg
            simp only []
            linarith
        · simp only [if_neg hyu] at hyx
          subst hyx
          exact hbal y hy

/-- C3 (amended): starting from a well-formed wallet table, every balance
stays ≥ −0.01 after any sequence of `adjust` (`updateWalletBalance`)
calls, where a rejected call leaves the state unchanged; and a debit that
would push a balance strictly below −0.01 is rejected with the
insufficient-funds error and leaves the database unchanged. -/
theorem adjust_eps_invariant :
    (∀ (db : DB) (steps : List (Nat × ℚ)), walletsWF db →
        ∀ w ∈ (runAdjusts db steps).wallets, -(1/100) ≤ w.balance) ∧
    (∀ (db : DB) (uid : Nat) (amt : ℚ) (w : Wallet),
        db.wallets.find? (fun x => x.user_id = uid) = some w →
        amt < 0 → w.balance + amt < -(1/100) →
        updateWalletBalance db uid amt = .error .insufficientFunds ∧
        applyAdjust db (uid, amt) = db) := by
  constructor
  · have main : ∀ (steps : List (Nat × ℚ)) (db : DB), walletsWF db →
        walletsWF (runAdjusts db steps) := by
      intro steps
      induction steps with
      | nil => intro db h; exact h
      | cons s t ih =>
        intro db h
        exact ih (applyAdjust db s) (applyAdjust_WF db s h)
    intro db steps h
    exact (main steps db h).2
  · intro db uid amt w hf hneg hlt
    have herr : updateWalletBalance db uid amt = .error .insufficientFunds := by
      unfold updateWalletBalance
      rw [hf]
      exact if_pos (show amt < 0 ∧ w.balance + amt < -(1/100) from ⟨hneg, hlt⟩)
    refine ⟨herr, ?_⟩
    unfold applyAdjust
    simp only [herr]

/-- Witness for C3's amended theorem: a concrete sequence with a rejected
debit in the middle, and a concrete rejected debit leaving the state
unchanged. -/
theorem adjust_eps_invariant_witness :
    (∀ w ∈ (runAdjusts ⟨[], [], [], [], [⟨1, 5⟩], []⟩
        [(1, -2), (1, -4), (2, 3), (1, -(301/100))]).wallets, -(1/100) ≤ w.balance) ∧
    (updateWalletBalance ⟨[], [], [], [], [⟨1, 5⟩], []⟩ 1 (-6) = .error .insufficientFunds ∧
      applyAdjust ⟨[], [], [], [], [⟨1, 5⟩], []⟩ (1, -6) = ⟨[], [], [], [], [⟨1, 5⟩], []⟩) :=
  ⟨adjust_eps_invariant.1 ⟨[], [], [], [], [⟨1, 5⟩], []⟩ [(1, -2), (1, -4), (2, 3), (1, -(301/100))]
      ⟨by decide, by decide⟩,
    adjust_eps_invariant.2 ⟨[], [], [], [], [⟨1, 5⟩], []⟩ 1 (-6) ⟨1, 5⟩ (by decide) (by decide)
      (by decide)⟩

/-- C3 (counterexample): the claim says every committed balance is ≥ 0 and
any debit that would make the balance negative is rejected.  On the source,
the debit guard is `balance + amount < -0.01` strictly, so debiting 0.01
from a zero-balance wallet commits and leaves the balance at −0.01 < 0. -/
theorem adjust_negative_balance_counterexample :
    updateWalletBalance ⟨[], [], [], [], [⟨1, 0⟩], []⟩ 1 (-(1/100)) =
      .ok ⟨[], [], [], [], [⟨1, -(1/100)⟩], []⟩ ∧
    getWalletBalance ⟨[], [], [], [], [⟨1, -(1/100)⟩], []⟩ 1 < 0 := by
  decide

/-! ## VenueService.calculateDynamicPrice (src/services/VenueService.js) -/

/-- A row of `venue_pricing_rules`: `days_of_week` is `NULL` ↦ `none`
(the JSON parse of the stored string — a parse failure yields `[]`, which
the source also treats as "every day"); `start_time`/`end_time` are kept as
their parsed leading-hour numbers. -/
structure PricingRule where
  days_of_week : Option (List Int)
  start_hour : Int
  end_hour : Int
  multiplier : ℚ
deriving DecidableEq, Repr

/-- `bookingStartHour >= ruleStart && bookingStartHour < ruleEnd`. -/
def hourInRange (bookingStartHour : Int) (r : PricingRule) : Bool :=
  decide (r.start_hour ≤ bookingStartHour) && decide (bookingStartHour < r.end_hour)

/-- The `for (const rule of rules)` loop of `calculateDynamicPrice`:
skip a rule whose non-empty day set misses the booking's weekday;
otherwise, when the booking's start hour lies in `[startHour, endHour)`
and the rule's multiplier exceeds the running maximum, take it. -/
def priceLoop (bookingDay bookingStartHour : Int) (rules : List PricingRule) (m : ℚ) : ℚ :=
  match rules with
  | [] => m
  | r :: rest =>
    let skip : Bool :=
      match r.days_of_week with
      | some days => !(days.isEmpty) && !(days.contains bookingDay)
      | none => false
    let m2 :=
      if skip then m
      else if hourInRange bookingStartHour r then
        (if r.multiplier > m then r.multiplier else m)
      else m
    priceLoop bookingDay bookingStartHour rest m2

/-- `calculateDynamicPrice(venue, date, time, hours)`: base amount
`price_per_hour * hours` times the loop's final multiplier (started at
1.0).  The source returns `total * maxMultiplier` with **no** rounding. -/
def calculateDynamicPrice (pricePerHour : ℚ) (rules : List PricingRule)
    (bookingDay bookingStartHour : Int) (hours : ℚ) : ℚ :=
  (pricePerHour * hours) * priceLoop bookingDay bookingStartHour rules 1

/-- A rule is applicable to a booking, in the claim's words: its
day-of-week set is absent/empty or contains the weekday, and the booking's
start hour falls within `[startHour, endHour)`. -/
def specApplicable (bookingDay bookingStartHour : Int) (r : PricingRule) : Bool :=
  (match r.days_of_week with
   | some days => days.isEmpty || days.contains bookingDay
   | none => true) &&
  hourInRange bookingStartHour r

/-- The price as the claim states it (written from the spec's words, to be
compared with the source's `calculateDynamicPrice`): base × hours × M with
M the maximum multiplier among applicable rules (1.0 when none apply),
rounded to 2 decimals. -/
def specPrice (pricePerHour : ℚ) (rules : List PricingRule)
    (bookingDay bookingStartHour : Int) (hours : ℚ) : ℚ :=
  let mults := (rules.filter (specApplicable bookingDay bookingStartHour)).map
    (fun r => r.multiplier)
  let m : ℚ :=
    match mults with
    | [] => 1
    | a :: rest => rest.foldl max a
  round2 (pricePerHour * hours * m)

/-! ## Theorems for C9 -/

/-- C9 (counterexample): the claim says the computed price is rounded to 2
decimal places.  The source performs no rounding: with base rate 0.99/hr,
a 1.5× rule over [18, 22) on every day and a 1-hour booking at 18:00 the
source returns 1.485 while the claim's rounded value is 1.49. -/
theorem calculateDynamicPrice_rounding_counterexample :
    (calculateDynamicPrice (99/100) [⟨none, 18, 22, 3/2⟩] 2 18 1 = 297/200 ∧
      specPrice (99/100) [⟨none, 18, 22, 3/2⟩] 2 18 1 = 149/100 ∧
      (297/200 : ℚ) ≠ 149/100) ∧
    (calculateDynamicPrice 100 [⟨none, 0, 24, 1/2⟩] 2 10 1 = 100 ∧
      specPrice 100 [⟨none, 0, 24, 1/2⟩] 2 10 1 = 50 ∧
      (100 : ℚ) ≠ 50) := by
  decide

/-- The pricing loop computes `foldl max` of the applicable multipliers. -/
theorem priceLoop_eq_foldl (bookingDay bookingStartHour : Int)
    (rules : List PricingRule) (m : ℚ) :
    priceLoop bookingDay bookingStartHour rules m =
      ((rules.filter (specApplicable bookingDay bookingStartHour)).map
        (fun r => r.multiplier)).foldl max m := by
  induction rules generalizing m with
  | nil => rfl
  | cons r rest ih =>
    have hmax : (if r.multiplier > m then r.multiplier else m) = max m r.multiplier := by
      rcases lt_or_le m r.multiplier with h | h
      · rw [if_pos h, max_eq_right (le_of_lt h)]
      · rw [if_neg (not_lt.mpr h), max_eq_left h]
    cases hd : r.days_of_week with
    | none =>
      cases hH : hourInRange bookingStartHour r <;>
        simp [priceLoop, specApplicable, hd, hH, hmax, ih, List.filter_cons]
    | some days =>
      cases hE : days.isEmpty <;> cases hC : days.contains bookingDay <;>
        cases hH : hourInRange bookingStartHour r <;>
        [skip; skip; skip; skip; skip; skip; skip; skip] <;>
        first
        | (have hmem : bookingDay ∈ days := by simpa using hC
           simp [priceLoop, specApplicable, hd, hE, hC, hH, hmax, ih, List.filter_cons, hmem])
        | (have hmem : bookingDay ∉ days := by simpa using hC
           simp [priceLoop, specApplicable, hd, hE, hC, hH, hmax, ih, List.filter_cons, hmem])

/-- C9 (amended): the computed price equals `basePrice × durationHours × M`
where `M` is the fold of `max` starting from 1.0 over the multipliers of
applicable rules (day set absent/empty or containing the weekday, start
hour within `[startHour, endHour)`), with no rounding applied; in
particular base rate 2500/hr, a 1.5 multiplier for hours [18, 22) every
day, and a 2-hour booking at 18:00 price to exactly 7500. -/
theorem calculateDynamicPrice_eq_base_times_max :
    (∀ (p : ℚ) (rules : List PricingRule) (day hour : Int) (hrs : ℚ),
      calculateDynamicPrice p rules day hour hrs =
        p * hrs *
          ((rules.filter (specApplicable day hour)).map (fun r => r.multiplier)).foldl max 1) ∧
    (∀ day : Int, calculateDynamicPrice 2500 [⟨some [], 18, 22, 3/2⟩] day 18 2 = 7500) := by
  constructor
  · intro p rules day hour hrs
    unfold calculateDynamicPrice
    rw [priceLoop_eq_foldl]
  · intro day
    have h32 : ((3:ℚ)/2 > 1) := by norm_num
    simp [calculateDynamicPrice, priceLoop, hourInRange, h32]
    norm_num

/-! ## SplitPaymentService (src/unnamed/part_022) -/

/-- `calculateShares(totalAmount, participantCount)`: the whole total when
there are no invitees, otherwise the equal split over
`participantCount + 1` people rounded to 2 decimals. -/
def calculateShares (totalAmount : ℚ) (participantCount : Int) : ℚ :=
  if participantCount ≤ 0 then totalAmount
  else round2 (totalAmount / ((participantCount : ℚ) + 1))

/-- The `booking_participants` row `addBookingParticipant` inserts for an
invitee (`is_initiator = 0`, `payment_status = 'PENDING'`). -/
def mkInviteeRow (bookingId userId : Nat) (share : ℚ) : Participant :=
  ⟨bookingId, userId, share, false, .pendingPay⟩

/-- `setupBookingSplits(bookingId, initiatorId, inviteeEmails, shareAmount)`
on the participants table: returns unchanged when the invitee list is
empty; otherwise inserts one row per resolved invitee user id (skipping
the initiator), then runs the final
`UPDATE booking_participants SET share_amount = ? WHERE booking_id = ? AND user_id = ?`
which sets the initiator's stored share to the *same* `shareAmount`.
The email-to-user-id resolution (`findIdsByEmails`) happens outside this
logic; `inviteeIds` are the resolved registered users. -/
def setupBookingSplits (ps : List Participant) (bookingId initiatorId : Nat)
    (inviteeIds : List Nat) (shareAmount : ℚ) : List Participant :=
  if inviteeIds = [] then ps
  else
    let withInvitees := inviteeIds.foldl
      (fun acc u => if u = initiatorId then acc else acc ++ [mkInviteeRow bookingId u shareAmount])
      ps
    withInvitees.map (fun p =>
      if p.booking_id = bookingId ∧ p.user_id = initiatorId then
        { p with share_amount := shareAmount }
      else p)

/-- Sum of the stored share amounts of a booking's participants. -/
def sumShares (ps : List Participant) (bookingId : Nat) : ℚ :=
  ((ps.filter (fun p => p.booking_id = bookingId)).map (fun p => p.share_amount)).sum

/-! ## Theorems for C4 -/

/-- C4 (counterexample): total 100 split among 2 invitees + initiator gives
the rounded share 33.33 for *everyone* (the final UPDATE overwrites the
initiator's share with the same rounded value instead of correcting it),
so the stored shares sum to 99.99 ≠ 100. -/
theorem share_conservation_counterexample :
    calculateShares 100 2 = 3333/100 ∧
    sumShares
      (setupBookingSplits [⟨1, 9, 3333/100, true, .pendingPay⟩] 1 9 [10, 11]
        (calculateShares 100 2)) 1 = 9999/100 ∧
    ((9999:ℚ)/100) ≠ 100 := by
  decide

/-- The invitee-insertion fold appends one `PENDING` invitee row per
non-initiator user id, in order. -/
theorem splitsFold_eq_append (bookingId initiatorId : Nat) (shareAmount : ℚ)
    (users : List Nat) (acc : List Participant) :
    users.foldl
      (fun acc u => if u = initiatorId then acc else acc ++ [mkInviteeRow bookingId u shareAmount])
      acc =
    acc ++ (users.filter (fun u => !(u = initiatorId))).map
      (fun u => mkInviteeRow bookingId u shareAmount) := by
  induction users generalizing acc with
  | nil => simp
  | cons u rest ih =>
    by_cases hu : u = initiatorId
    · simp [List.foldl_cons, hu, ih, List.filter_cons]
    · simp [List.foldl_cons, hu, ih, List.filter_cons]

/-- Summing a constant over a list. -/
theorem sum_map_const_rat (l : List Nat) (s : ℚ) :
    (l.map (fun _ => s)).sum = (l.length : ℚ) * s := by
  induction l with
  | nil => simp
  | cons u rest ih =>
    simp only [List.map_cons, List.sum_cons, List.length_cons, ih]
    push_cast
    ring

/-- C4 (amended): starting from the initiator's single participant row,
`setupBookingSplits` with `k ≥ 1` registered invitees (none of them the
initiator) stores the *same* share for every one of the `k + 1`
participants, so the shares sum to `(k + 1) × calculateShares(total, k)`
— the claimed initiator-side rounding correction does not happen, and for
total = 100, k = 2 the sum 99.99 differs from the booking total. -/
theorem setupBookingSplits_sum (total : ℚ) (p0 : Participant) (bookingId initiatorId : Nat)
    (users : List Nat)
    (hb : p0.booking_id = bookingId) (hu : p0.user_id = initiatorId)
    (hnin : initiatorId ∉ users) (hne : users ≠ []) :
    sumShares
      (setupBookingSplits [p0] bookingId initiatorId users
        (calculateShares total (users.length : Int))) bookingId =
      ((users.length : ℚ) + 1) * calculateShares total (users.length : Int) := by
  set s := calculateShares total (users.length : Int) with hs
  unfold setupBookingSplits
  rw [if_neg hne, splitsFold_eq_append]
  have hfilter : users.filter (fun u => !(u = initiatorId)) = users := by
    apply List.filter_eq_self.mpr
    intro u hmem
    have hne2 : ¬(u = initiatorId) := fun hc => hnin (hc ▸ hmem)
    simp [hne2]
  rw [hfilter]
  have hmap : (([p0] ++ users.map (fun u => mkInviteeRow bookingId u s)).map
      (fun p => if p.booking_id = bookingId ∧ p.user_id = initiatorId then
        { p with share_amount := s } else p)) =
      { p0 with share_amount := s } :: users.map (fun u => mkInviteeRow bookingId u s) := by
    rw [List.map_append, List.map_map]
    have h1 : ([p0].map (fun p => if p.booking_id = bookingId ∧ p.user_id = initiatorId then
        { p with share_amount := s } else p)) = [{ p0 with share_amount := s }] := by
      simp [hb, hu]
    have h2 : (users.map ((fun p => if p.booking_id = bookingId ∧ p.user_id = initiatorId then
        { p with share_amount := s } else p) ∘ (fun u => mkInviteeRow bookingId u s))) =
        users.map (fun u => mkInviteeRow bookingId u s) := by
      apply List.map_congr_left
      intro u hmem
      have hne2 : ¬(u = initiatorId) := fun hc => hnin (hc ▸ hmem)
      simp [Function.comp, mkInviteeRow, hne2]
    rw [h1, h2]
    rfl
  rw [hmap]
  unfold sumShares
  have hkeep : (({ p0 with share_amount := s } ::
      users.map (fun u => mkInviteeRow bookingId u s)).filter
        (fun p => p.booking_id = bookingId)) =
      { p0 with share_amount := s } :: users.map (fun u => mkInviteeRow bookingId u s) := by
    apply List.filter_eq_self.mpr
    intro p hp
    rcases List.mem_cons.mp hp with rfl | hp2
    · simp [hb]
    · obtain ⟨u, _, rfl⟩ := List.mem_map.mp hp2
      simp [mkInviteeRow]
  rw [hkeep]
  simp only [List.map_cons, List.sum_cons, List.map_map]
  have hsum : ((users.map ((fun p => p.share_amount) ∘ (fun u => mkInviteeRow bookingId u s)))).sum
      = (users.length : ℚ) * s := by
    have : (users.map ((fun p => p.share_amount) ∘ (fun u => mkInviteeRow bookingId u s))) =
        users.map (fun _ => s) := by
      apply List.map_congr_left
      intro u _
      rfl
    rw [this, sum_map_const_rat]
  rw [hsum]
  ring

/-- Witness for C4's amended theorem: total 100, two invitees. -/
theorem setupBookingSplits_sum_witness :
    sumShares
      (setupBookingSplits [⟨1, 9, 100, true, .pendingPay⟩] 1 9 [10, 11]
        (calculateShares 100 (([10, 11] : List Nat).length : Int))) 1 =
      ((([10, 11] : List Nat).length : ℚ) + 1) *
        calculateShares 100 (([10, 11] : List Nat).length : Int) :=
  setupBookingSplits_sum 100 ⟨1, 9, 100, true, .pendingPay⟩ 1 9 [10, 11] rfl rfl
    (by decide) (by decide)

/-! ## BookingService (src/services/BookingService.js, current revision) -/

/-- `SELECT * FROM bookings WHERE booking_id = ?` (first row). -/
def findBooking (db : DB) (bookingId : Nat) : Option Booking :=
  db.bookings.find? (fun b => b.booking_id = bookingId)

/-- `getBookingWithPolicy`: booking row joined with its venue (INNER JOIN,
so `none` when either is missing); the policy columns live on the booking
row in this model, already resolved as the LEFT JOIN produces them. -/
def getBookingWithPolicy (db : DB) (bookingId : Nat) : Option (Booking × Venue) :=
  match findBooking db bookingId with
  | none => none
  | some b =>
    match db.venues.find? (fun v => v.venue_id = b.venue_id) with
    | none => none
    | some v => some (b, v)

/-- `UPDATE bookings SET status = 'CANCELLED', cancellation_time = ? WHERE booking_id = ?`. -/
def updateBookingCancellation (db : DB) (bookingId : Nat) : DB :=
  let rows := db.bookings.map
    (fun b => if b.booking_id = bookingId then { b with status := .cancelled } else b)
  { db with bookings := rows }

/-- `SELECT ... FROM booking_participants WHERE booking_id = ?`. -/
def getBookingParticipants (db : DB) (bookingId : Nat) : List Participant :=
  db.participants.filter (fun p => p.booking_id = bookingId)

/-- `UPDATE booking_participants SET payment_status = ? WHERE booking_id = ?`. -/
def updateParticipantsPaymentStatus (db : DB) (bookingId : Nat) (st : PStatus) : DB :=
  let rows := db.participants.map
    (fun p => if p.booking_id = bookingId then { p with payment_status := st } else p)
  { db with participants := rows }

/-- `UPDATE payments SET status = 'REFUNDED' WHERE booking_id = ? AND status = 'SUCCEEDED'`. -/
def refundSucceededPayments (db : DB) (bookingId : Nat) : DB :=
  let rows := db.payments.map
    (fun p => if p.booking_id = bookingId ∧ p.pay_status = .succeeded then
      { p with pay_status := .refundedPmt } else p)
  { db with payments := rows }

/-- The refund arithmetic of `cancelBooking` ("Step B: The Math"):
full refund above the policy cutoff, percentage refund (and the
complementary owner revenue cut) at or below it. -/
def cancelRefundMath (baseAmount hoursRemaining policyHours refundPct : ℚ) : ℚ × ℚ :=
  if hoursRemaining > policyHours then (baseAmount, 0)
  else (baseAmount * (refundPct / 100), baseAmount * (1 - refundPct / 100))

/-- The `for (const p of participants)` refund-distribution loop of
`cancelBooking`: every non-initiator participant with `payment_status =
'PAID'` is credited `share_amount * factor` (with a REFUND ledger row),
and the credited amounts are accumulated.  Any wallet failure aborts
(the surrounding transaction rolls back). -/
def refundParticipantsLoop (factor : ℚ) :
    DB → List Participant → ℚ → Except Err (DB × ℚ)
  | db, [], acc => .ok (db, acc)
  | db, p :: rest, acc =>
    if p.is_initiator = false ∧ p.payment_status = .paid then
      match updateWalletBalance db p.user_id (p.share_amount * factor) with
      | .error e => .error e
      | .ok db1 =>
        match createTransaction db1 p.user_id (p.share_amount * factor) "CREDIT" "REFUND" with
        | .error e => .error e
        | .ok db2 => refundParticipantsLoop factor db2 rest (acc + p.share_amount * factor)
    else refundParticipantsLoop factor db rest acc

/-- The `hoursRemaining > policyHours ? 1 : refundPct / 100` per-share
refund factor used in the participant loop. -/
def cancelFactor (hoursRemaining policyHours refundPct : ℚ) : ℚ :=
  if hoursRemaining > policyHours then 1 else refundPct / 100

/-- The transactional body of `cancelBooking` (everything between
`beginTransaction` and `commit`): mark the booking cancelled, credit the
paid non-initiator participants, credit the initiator with the remainder
of the refund pool, debit the venue owner by the full player refund, and
flip participant/payment statuses.  Any error rolls the whole transaction
back (the caller keeps the pre-state). -/
def cancelTransaction (db : DB) (bookingId userId : Nat) (ownerIdOpt : Option Nat)
    (playerRefund factor : ℚ) : Except Err (DB × ℚ) :=
  match refundParticipantsLoop factor (updateBookingCancellation db bookingId)
      (getBookingParticipants db bookingId) 0 with
  | .error e => .error e
  | .ok (db1, othersRefundTotal) =>
    match ((if playerRefund - othersRefundTotal > 0 then
        match updateWalletBalance db1 userId (playerRefund - othersRefundTotal) with
        | .error e => .error e
        | .ok d =>
          createTransaction d userId (playerRefund - othersRefundTotal) "CREDIT" "REFUND"
      else .ok db1) : Except Err DB) with
    | .error e => .error e
    | .ok db2 =>
      match ((match ownerIdOpt with
        | some ownerId =>
          if playerRefund > 0 then
            match updateWalletBalance db2 ownerId (-playerRefund) with
            | .error e => .error e
            | .ok d => createTransaction d ownerId (-playerRefund) "DEBIT" "REFUND_DEDUCTION"
          else .ok db2
        | none => .ok db2) : Except Err DB) with
      | .error e => .error e
      | .ok db3 =>
        .ok (refundSucceededPayments
              (updateParticipantsPaymentStatus db3 bookingId
                (if playerRefund > 0 then PStatus.refunded else PStatus.cancelledPay))
              bookingId,
            playerRefund)

/-- `cancelBooking(bookingId, userId)` from BookingService.js: load the
booking with policy, authorize (creator only), reject already-cancelled
and already-started bookings, compute the refund split
(`cancelRefundMath` on `total_amount`), then run the atomic cancellation
transaction `cancelTransaction`. -/
def cancelBooking (db : DB) (bookingId userId : Nat) (now : ℚ) : Except Err (DB × ℚ) :=
  match getBookingWithPolicy db bookingId with
  | none => .error .bookingNotFound
  | some (b, v) =>
    if b.created_by ≠ userId then .error .unauthorized
    else if b.status = .cancelled then .error .alreadyCancelled
    else if (b.booking_start - now) / 60 ≤ 0 then .error .tooLateToCancel
    else
      cancelTransaction db bookingId userId v.owner_id
        ((cancelRefundMath b.total_amount ((b.booking_start - now) / 60)
          (b.hours_before_start.getD 0) (b.refund_percentage.getD 0)).1)
        (cancelFactor ((b.booking_start - now) / 60) (b.hours_before_start.getD 0)
          (b.refund_percentage.getD 0))

/-- The transaction returns the `playerRefund` it was given. -/
theorem cancelTransaction_snd (db : DB) (bookingId userId : Nat) (ownerIdOpt : Option Nat)
    (playerRefund factor : ℚ) (d : DB) (r : ℚ)
    (h : cancelTransaction db bookingId userId ownerIdOpt playerRefund factor = .ok (d, r)) :
    r = playerRefund := by
  unfold cancelTransaction at h
  repeat' split at h
  all_goals try exact Except.noConfusion h
  all_goals exact (congrArg Prod.snd (Except.ok.inj h)).symm

/-! ## Theorems for C2 -/

/-- C2: whenever a cancellation commits, the returned refund is exactly
the "Step B" math on the booking's total: above the cutoff the refund is
100% of the total with owner cut 0, otherwise the refund is
`total × refundPct/100` with owner cut `total × (1 − refundPct/100)`. -/
theorem cancelBooking_refund_amounts (db : DB) (bookingId userId : Nat) (now : ℚ)
    (b : Booking) (v : Venue) (db2 : DB) (r : ℚ)
    (hfound : getBookingWithPolicy db bookingId = some (b, v))
    (hok : cancelBooking db bookingId userId now = .ok (db2, r)) :
    r = (cancelRefundMath b.total_amount ((b.booking_start - now) / 60)
          (b.hours_before_start.getD 0) (b.refund_percentage.getD 0)).1 ∧
    (∀ total hr cutoff pct : ℚ, hr > cutoff →
      cancelRefundMath total hr cutoff pct = (total, 0)) ∧
    (∀ total hr cutoff pct : ℚ, ¬hr > cutoff →
      cancelRefundMath total hr cutoff pct = (total * (pct / 100), total * (1 - pct / 100))) := by
  refine ⟨?_, ?_, ?_⟩
  · simp only [cancelBooking, hfound] at hok
    repeat' split at hok
    all_goals try exact Except.noConfusion hok
    exact cancelTransaction_snd _ _ _ _ _ _ _ _ hok
  · intro total hr cutoff pct h
    unfold cancelRefundMath
    rw [if_pos h]
  · intro total hr cutoff pct h
    unfold cancelRefundMath
    rw [if_neg h]

/-- Witness for C2's theorem: a concrete booking (total 1000, policy 50%
within 24h) cancelled by its creator 10 hours before start; the commit
succeeds and the instantiated conclusion holds. -/
theorem cancelBooking_refund_amounts_witness :
    (500 : ℚ) = (cancelRefundMath (1000:ℚ) (((600:ℚ) - 0) / 60)
        ((some (24:ℚ)).getD 0) ((some (50:ℚ)).getD 0)).1 ∧
    (∀ total hr cutoff pct : ℚ, hr > cutoff →
      cancelRefundMath total hr cutoff pct = (total, 0)) ∧
    (∀ total hr cutoff pct : ℚ, ¬hr > cutoff →
      cancelRefundMath total hr cutoff pct = (total * (pct / 100), total * (1 - pct / 100))) := by
  have h := cancelBooking_refund_amounts
    ⟨[⟨1, some 2, 100⟩], [⟨1, 1, none, 7, 600, 660, 1000, .confirmed, some 50, some 24⟩],
      [⟨1, 7, 1000, true, .paid⟩], [⟨1, 7, 1000, .succeeded, "sess"⟩], [⟨2, 5000⟩], []⟩
    1 7 0
    ⟨1, 1, none, 7, 600, 660, 1000, .confirmed, some 50, some 24⟩ ⟨1, some 2, 100⟩
    ⟨[⟨1, some 2, 100⟩], [⟨1, 1, none, 7, 600, 660, 1000, .cancelled, some 50, some 24⟩],
      [⟨1, 7, 1000, true, .refunded⟩], [⟨1, 7, 1000, .refundedPmt, "sess"⟩],
      [⟨2, 4500⟩, ⟨7, 500⟩], [⟨7, 500, "CREDIT", "REFUND"⟩, ⟨2, -500, "DEBIT", "REFUND_DEDUCTION"⟩]⟩
    500 (by decide) (by decide)
  exact h

/-! ## Theorems for C7 -/

/-- C7 (counterexample): the claim admits the venue owner as an authorized
canceller.  Here venue 1 is owned by user 2 and the booking was created by
user 1; user 2's cancellation is rejected with the authorization error
(the source authorizes only `booking.created_by`). -/
theorem cancelBooking_owner_rejected_counterexample :
    cancelBooking
      ⟨[⟨1, some 2, 100⟩], [⟨1, 1, none, 1, 600, 660, 1000, .confirmed, some 50, some 24⟩],
        [], [], [⟨2, 5000⟩], []⟩
      1 2 0 = .error .unauthorized := by
  decide

/-- C7 (amended): `cancelBooking` authorizes only the booking's creator —
any other acting user (the venue owner included) is rejected with the
authorization error; and when the creator cancels with
`hoursRemaining ≤ 0` the call is rejected as too late (no owner
exemption exists, since owners cannot cancel at all). -/
theorem cancelBooking_creator_only (db : DB) (bookingId userId : Nat) (now : ℚ)
    (b : Booking) (v : Venue)
    (hfound : getBookingWithPolicy db bookingId = some (b, v)) :
    (b.created_by ≠ userId → cancelBooking db bookingId userId now = .error .unauthorized) ∧
    (b.created_by = userId → ¬b.status = .cancelled → (b.booking_start - now) / 60 ≤ 0 →
      cancelBooking db bookingId userId now = .error .tooLateToCancel) := by
  constructor
  · intro hne
    simp only [cancelBooking, hfound]
    rw [if_pos hne]
  · intro heq hst hhr
    simp only [cancelBooking, hfound]
    rw [if_neg (not_not_intro heq), if_neg hst, if_pos hhr]

/-- Witness for C7's amended theorem: the venue owner (user 2) is
rejected, and a creator cancelling after the start time is rejected as
too late. -/
theorem cancelBooking_creator_only_witness :
    cancelBooking
      ⟨[⟨1, some 2, 100⟩], [⟨1, 1, none, 1, 600, 660, 1000, .confirmed, some 50, some 24⟩],
        [], [], [⟨2, 5000⟩], []⟩ 1 2 0 = .error .unauthorized ∧
    cancelBooking
      ⟨[⟨1, some 2, 100⟩], [⟨1, 1, none, 1, 600, 660, 1000, .confirmed, some 50, some 24⟩],
        [], [], [⟨2, 5000⟩], []⟩ 1 1 700 = .error .tooLateToCancel :=
  ⟨(cancelBooking_creator_only
      ⟨[⟨1, some 2, 100⟩], [⟨1, 1, none, 1, 600, 660, 1000, .confirmed, some 50, some 24⟩],
        [], [], [⟨2, 5000⟩], []⟩ 1 2 0
      ⟨1, 1, none, 1, 600, 660, 1000, .confirmed, some 50, some 24⟩ ⟨1, some 2, 100⟩
      (by decide)).1 (by decide),
   (cancelBooking_creator_only
      ⟨[⟨1, some 2, 100⟩], [⟨1, 1, none, 1, 600, 660, 1000, .confirmed, some 50, some 24⟩],
        [], [], [⟨2, 5000⟩], []⟩ 1 1 700
      ⟨1, 1, none, 1, 600, 660, 1000, .confirmed, some 50, some 24⟩ ⟨1, some 2, 100⟩
      (by decide)).2 (by decide) (by decide) (by decide)⟩

/-! ## Reschedule (BookingService.rescheduleBooking + utils/dateUtil.js) -/

/-- A parsed `"HH:MM"` time of day. -/
structure TimeOfDay where
  hh : Nat
  mm : Nat
deriving DecidableEq, Repr

/-- `hours * 60 + minutes` as in dateUtil.js. -/
def timeTotalMinutes (t : TimeOfDay) : Nat := t.hh * 60 + t.mm

/-- `isValid15MinInterval`: minutes part is 0, 15, 30 or 45. -/
def isValid15MinInterval (t : TimeOfDay) : Bool :=
  decide (t.mm = 0 ∨ t.mm = 15 ∨ t.mm = 30 ∨ t.mm = 45)

/-- `isWithinBookingWindow`: start between 07:00 (inclusive) and 22:00
(exclusive), in minutes. -/
def isWithinBookingWindow (t : TimeOfDay) : Bool :=
  decide (420 ≤ timeTotalMinutes t ∧ timeTotalMinutes t < 1320)

/-- `doesBookingFitInWindow`: `start + duration*60 ≤ 22:00`. -/
def doesBookingFitInWindow (t : TimeOfDay) (durationHours : ℚ) : Bool :=
  decide ((timeTotalMinutes t : ℚ) + durationHours * 60 ≤ 1320)

/-- The in-transaction conflict query of `rescheduleBooking`: same venue,
status in {CONFIRMED, PENDING, BLOCKED}, `booking_id != ?` (the rescheduled
booking itself is excluded), three-disjunct overlap. -/
def conflictExcludingSelf (db : DB) (venueId bookingId : Nat) (newStart newEnd : ℚ) : Bool :=
  db.bookings.any
    (fun b2 => decide (b2.venue_id = venueId) && activeStatus b2.status &&
      !(decide (b2.booking_id = bookingId)) && overlapCond newStart newEnd b2)

/-- `UPDATE bookings SET booking_start = ?, booking_end = ? WHERE booking_id = ?`. -/
def updateBookingDates (db : DB) (bookingId : Nat) (newStart newEnd : ℚ) : DB :=
  let rows := db.bookings.map
    (fun b => if b.booking_id = bookingId then
      { b with booking_start := newStart, booking_end := newEnd } else b)
  { db with bookings := rows }

/-- `rescheduleBooking(bookingId, userId, newDate, newTime, hours)` from
BookingService.js: load booking + venue, authorize (creator), require
status CONFIRMED, validate the new time (15-minute alignment, operating
window, fit, strictly future), then — inside the transaction — reject when
any *other* active booking of the venue overlaps the new interval, and
otherwise update the booking's dates in place.  (The source also computes
a first `hasBookingConflict` result before the transaction, but never acts
on it; only the self-excluding in-transaction query decides admission.)
The new date is a day index; the absolute start is `day*1440 + minutes`. -/
def rescheduleBooking (db : DB) (bookingId userId : Nat) (newDay : Nat) (newTime : TimeOfDay)
    (hours : ℚ) (now : ℚ) : Except Err DB :=
  match getBookingWithPolicy db bookingId with
  | none => .error .bookingNotFound
  | some (b, _v) =>
    if b.created_by ≠ userId then .error .unauthorized
    else if ¬b.status = .confirmed then .error .onlyConfirmedReschedule
    else if ¬isValid15MinInterval newTime = true then .error .invalid15Min
    else if ¬isWithinBookingWindow newTime = true then .error .outsideWindow
    else if ¬doesBookingFitInWindow newTime hours = true then .error .doesNotFit
    else if ((newDay * 1440 + timeTotalMinutes newTime : Nat) : ℚ) ≤ now then
      .error .notInFuture
    else if conflictExcludingSelf db b.venue_id bookingId
        ((newDay * 1440 + timeTotalMinutes newTime : Nat) : ℚ)
        (((newDay * 1440 + timeTotalMinutes newTime : Nat) : ℚ) + hours * 60) then
      .error .slotUnavailable
    else
      .ok (updateBookingDates db bookingId
        ((newDay * 1440 + timeTotalMinutes newTime : Nat) : ℚ)
        (((newDay * 1440 + timeTotalMinutes newTime : Nat) : ℚ) + hours * 60))

/-! ## Theorems for C10 -/

/-- C10: rescheduling a booking whose status is not CONFIRMED always fails
(with the dedicated status error when the caller is the creator and would
otherwise be authorized), before any conflict check or write — the booking
table is untouched on every error path. -/
theorem reschedule_requires_confirmed (db : DB) (bookingId userId : Nat) (newDay : Nat)
    (newTime : TimeOfDay) (hours : ℚ) (now : ℚ) (b : Booking) (v : Venue)
    (hfound : getBookingWithPolicy db bookingId = some (b, v))
    (hst : ¬b.status = .confirmed) :
    (∃ e, rescheduleBooking db bookingId userId newDay newTime hours now = .error e) ∧
    (b.created_by = userId →
      rescheduleBooking db bookingId userId newDay newTime hours now =
        .error .onlyConfirmedReschedule) := by
  constructor
  · by_cases hauth : b.created_by ≠ userId
    · refine ⟨.unauthorized, ?_⟩
      simp only [rescheduleBooking, hfound]
      rw [if_pos hauth]
    · refine ⟨.onlyConfirmedReschedule, ?_⟩
      simp only [rescheduleBooking, hfound]
      rw [if_neg hauth, if_pos hst]
  · intro heq
    simp only [rescheduleBooking, hfound]
    rw [if_neg (not_not_intro heq), if_pos hst]

/-- Witness for C10: a PENDING booking cannot be rescheduled. -/
theorem reschedule_requires_confirmed_witness :
    (∃ e, rescheduleBooking
      ⟨[⟨1, some 2, 100⟩], [⟨1, 1, none, 1, 600, 660, 1000, .pending, none, none⟩],
        [], [], [], []⟩ 1 1 0 ⟨10, 0⟩ 1 0 = .error e) ∧
    ((⟨1, 1, none, 1, 600, 660, 1000, .pending, none, none⟩ : Booking).created_by = 1 →
      rescheduleBooking
        ⟨[⟨1, some 2, 100⟩], [⟨1, 1, none, 1, 600, 660, 1000, .pending, none, none⟩],
          [], [], [], []⟩ 1 1 0 ⟨10, 0⟩ 1 0 = .error .onlyConfirmedReschedule) :=
  reschedule_requires_confirmed
    ⟨[⟨1, some 2, 100⟩], [⟨1, 1, none, 1, 600, 660, 1000, .pending, none, none⟩],
      [], [], [], []⟩ 1 1 0 ⟨10, 0⟩ 1 0
    ⟨1, 1, none, 1, 600, 660, 1000, .pending, none, none⟩ ⟨1, some 2, 100⟩
    (by decide) (by decide)

/-! ## Theorems for C8 -/

/-- C8: the conflict check that decides a reschedule excludes the
rescheduled booking itself — when every active overlapping booking of the
venue *is* the booking being rescheduled, the reschedule is admitted and
the booking's interval is updated in place. -/
theorem reschedule_excludes_self (db : DB) (bookingId userId : Nat) (newDay : Nat)
    (newTime : TimeOfDay) (hours : ℚ) (now : ℚ) (b : Booking) (v : Venue)
    (hfound : getBookingWithPolicy db bookingId = some (b, v))
    (hauth : b.created_by = userId)
    (hst : b.status = .confirmed)
    (h15 : isValid15MinInterval newTime = true)
    (hwin : isWithinBookingWindow newTime = true)
    (hfit : doesBookingFitInWindow newTime hours = true)
    (hfut : now < ((newDay * 1440 + timeTotalMinutes newTime : Nat) : ℚ))
    (hself : ∀ b2 ∈ db.bookings, b2.venue_id = b.venue_id → activeStatus b2.status = true →
      overlapCond ((newDay * 1440 + timeTotalMinutes newTime : Nat) : ℚ)
        (((newDay * 1440 + timeTotalMinutes newTime : Nat) : ℚ) + hours * 60) b2 = true →
      b2.booking_id = bookingId) :
    rescheduleBooking db bookingId userId newDay newTime hours now =
      .ok (updateBookingDates db bookingId
        ((newDay * 1440 + timeTotalMinutes newTime : Nat) : ℚ)
        (((newDay * 1440 + timeTotalMinutes newTime : Nat) : ℚ) + hours * 60)) := by
  have hconf : conflictExcludingSelf db b.venue_id bookingId
      ((newDay * 1440 + timeTotalMinutes newTime : Nat) : ℚ)
      (((newDay * 1440 + timeTotalMinutes newTime : Nat) : ℚ) + hours * 60) = false := by
    rw [Bool.eq_false_iff]
    intro hc
    unfold conflictExcludingSelf at hc
    rw [List.any_eq_true] at hc
    obtain ⟨b2, hb2, hcond⟩ := hc
    simp only [Bool.and_eq_true, Bool.not_eq_true', decide_eq_true_eq,
      decide_eq_false_iff_not] at hcond
    exact hcond.1.2 (hself b2 hb2 hcond.1.1.1 hcond.1.1.2 hcond.2)
  simp only [rescheduleBooking, hfound]
  rw [if_neg (not_not_intro hauth), if_neg (not_not_intro hst),
    if_neg (not_not_intro h15), if_neg (not_not_intro hwin), if_neg (not_not_intro hfit),
    if_neg (not_le.mpr hfut), if_neg (by rw [hconf]; exact Bool.false_ne_true)]

/-- Witness for C8: moving a confirmed 10:00–11:00 booking to 10:30–11:30
on the same day succeeds although the new interval overlaps the booking's
own current one (another non-overlapping confirmed booking exists at the
venue). -/
theorem reschedule_excludes_self_witness :
    rescheduleBooking
      ⟨[⟨1, some 2, 100⟩],
        [⟨1, 1, none, 1, 600, 660, 1000, .confirmed, none, none⟩,
         ⟨2, 1, none, 3, 700, 760, 1000, .confirmed, none, none⟩],
        [], [], [], []⟩ 1 1 0 ⟨10, 30⟩ 1 0 =
      .ok (updateBookingDates
        ⟨[⟨1, some 2, 100⟩],
          [⟨1, 1, none, 1, 600, 660, 1000, .confirmed, none, none⟩,
           ⟨2, 1, none, 3, 700, 760, 1000, .confirmed, none, none⟩],
          [], [], [], []⟩ 1
        ((0 * 1440 + timeTotalMinutes ⟨10, 30⟩ : Nat) : ℚ)
        (((0 * 1440 + timeTotalMinutes ⟨10, 30⟩ : Nat) : ℚ) + 1 * 60)) :=
  reschedule_excludes_self
    ⟨[⟨1, some 2, 100⟩],
      [⟨1, 1, none, 1, 600, 660, 1000, .confirmed, none, none⟩,
       ⟨2, 1, none, 3, 700, 760, 1000, .confirmed, none, none⟩],
      [], [], [], []⟩ 1 1 0 ⟨10, 30⟩ 1 0
    ⟨1, 1, none, 1, 600, 660, 1000, .confirmed, none, none⟩ ⟨1, some 2, 100⟩
    (by decide) (by decide) (by decide) (by decide) (by decide) (by decide) (by decide)
    (by decide)

/-! ## SplitPaymentService.executeReimbursement and
BookingController.paySplitShare -/

/-- `executeReimbursement(participantUserId, bookingId, amountPaid)`: its
own transaction — find the booking's initiator (error when absent), mark
the paying participant `PAID`, credit the initiator's wallet and append a
`BOOKING_REIMBURSEMENT` ledger row; an error rolls this transaction back. -/
def executeReimbursement (db : DB) (participantUserId bookingId : Nat)
    (amountPaid : ℚ) : Except Err DB :=
  match db.participants.find?
      (fun p => p.booking_id = bookingId ∧ p.is_initiator = true) with
  | none => .error .initiatorNotFound
  | some initiatorRow =>
    let rows := db.participants.map
      (fun p => if p.booking_id = bookingId ∧ p.user_id = participantUserId then
        { p with payment_status := .paid } else p)
    match updateWalletBalance { db with participants := rows }
        initiatorRow.user_id amountPaid with
    | .error e => .error e
    | .ok db2 =>
      createTransaction db2 initiatorRow.user_id amountPaid "CREDIT" "BOOKING_REIMBURSEMENT"

/-- `paySplitShare` (wallet branch) from BookingController.js.  The source
takes a connection but never opens a transaction on it: the participant
lookup and balance check are reads, then the wallet debit and its DEBIT
ledger row are **autocommitted** statements, the connection is released,
and only then `executeReimbursement` runs in its own transaction.  The
result is the pair (error?, observable state): on an error raised after
the debit, the debit stays committed. -/
def paySplitShare (db : DB) (bookingId userId : Nat) (useWallet : Bool) :
    Option Err × DB :=
  match db.participants.find? (fun p => p.booking_id = bookingId ∧ p.user_id = userId) with
  | none => (some .participantNotFound, db)
  | some participant =>
    if participant.payment_status = .paid then (some .alreadyPaid, db)
    else if useWallet then
      if getWalletBalance db userId < participant.share_amount then
        (some .insufficientBalance, db)
      else
        match updateWalletBalance db userId (-participant.share_amount) with
        | .error e => (some e, db)
        | .ok db1 =>
          match createTransaction db1 userId (-participant.share_amount)
              "DEBIT" "BOOKING_SPLIT_PAYMENT" with
          | .error e => (some e, db1)
          | .ok db2 =>
            match executeReimbursement db2 userId bookingId participant.share_amount with
            | .error e => (some e, db2)
            | .ok db3 => (none, db3)
    else (none, db)

/-! ## Theorems for C5 -/

/-- C5: on the split-share settlement path, a failure after the payer's
wallet debit does **not** roll the debit back.  Concretely: booking 1 has
a participant row for user 5 (share 40, PENDING) but no initiator row;
user 5 pays with wallet balance 100.  The debit and its ledger row are
autocommitted, then `executeReimbursement` fails with
`initiatorNotFound` and rolls back only its own transaction — the call
returns an error while user 5's balance is already 60 and the participant
is still unpaid: an observable partial settlement. -/
theorem paySplitShare_partial_settlement :
    (paySplitShare ⟨[], [⟨1, 1, none, 9, 600, 660, 120, .confirmed, none, none⟩],
        [⟨1, 5, 40, false, .pendingPay⟩], [], [⟨5, 100⟩], []⟩ 1 5 true).1 =
      some .initiatorNotFound ∧
    (paySplitShare ⟨[], [⟨1, 1, none, 9, 600, 660, 120, .confirmed, none, none⟩],
        [⟨1, 5, 40, false, .pendingPay⟩], [], [⟨5, 100⟩], []⟩ 1 5 true).2 =
      ⟨[], [⟨1, 1, none, 9, 600, 660, 120, .confirmed, none, none⟩],
        [⟨1, 5, 40, false, .pendingPay⟩], [], [⟨5, 60⟩],
        [⟨5, -40, "DEBIT", "BOOKING_SPLIT_PAYMENT"⟩]⟩ ∧
    getWalletBalance (paySplitShare ⟨[], [⟨1, 1, none, 9, 600, 660, 120, .confirmed, none, none⟩],
        [⟨1, 5, 40, false, .pendingPay⟩], [], [⟨5, 100⟩], []⟩ 1 5 true).2 5 = 60 := by
  decide

/-! ## BookingController.handleCheckoutSuccess (confirmCheckout) -/

/-- The Stripe checkout session as the confirmation callback sees it:
`sid` is the session id, `paid` the settled `payment_status`,
`amount_total` the charged amount in minor units, and the remaining
fields are the booking metadata the session carries. -/
structure Session where
  sid : String
  paid : Bool
  amount_total : ℚ
  venue_id : Nat
  court_id : Option Nat
  user_id : Nat
  booking_start : ℚ
  booking_end : ℚ
  total_amount : ℚ
  share_amount : ℚ
  invitees : List Nat
  points_to_deduct : ℚ
  owner_id : Option Nat
  refund_percentage : Option ℚ
  hours_before_start : Option ℚ
deriving DecidableEq, Repr

/-- `getBookingByPaymentReference(providerRef)`:
`SELECT b.* FROM bookings b JOIN payments p ... WHERE p.provider_reference = ? LIMIT 1`. -/
def getBookingByPaymentReference (db : DB) (providerRef : String) : Option Booking :=
  match db.payments.find? (fun p => p.provider_reference = providerRef) with
  | none => none
  | some p => db.bookings.find? (fun b => b.booking_id = p.booking_id)

/-- The AUTO_INCREMENT id the booking INSERT produces. -/
def maxBookingId (db : DB) : Nat := (db.bookings.map (fun b => b.booking_id)).foldr max 0

/-- Next AUTO_INCREMENT value. -/
def freshBookingId (db : DB) : Nat := maxBookingId db + 1

/-- `createBooking` (INSERT, status PENDING): the new row carries the
session's metadata, including the court id and the snapshotted custom
policy values. -/
def newBookingRow (db : DB) (s : Session) : Booking :=
  ⟨freshBookingId db, s.venue_id, s.court_id, s.user_id, s.booking_start, s.booking_end,
   s.total_amount, .pending, s.refund_percentage, s.hours_before_start⟩

/-- INSERT a booking row. -/
def addBooking (db : DB) (b : Booking) : DB := { db with bookings := db.bookings ++ [b] }

/-- INSERT a participant row. -/
def addParticipant (db : DB) (p : Participant) : DB :=
  { db with participants := db.participants ++ [p] }

/-- INSERT a payment row (status PENDING). -/
def addPayment (db : DB) (p : Payment) : DB := { db with payments := db.payments ++ [p] }

/-- `updateBookingStatus` (UPDATE by booking_id). -/
def updateBookingStatus (db : DB) (bookingId : Nat) (st : BStatus) : DB :=
  let rows := db.bookings.map
    (fun b => if b.booking_id = bookingId then { b with status := st } else b)
  { db with bookings := rows }

/-- `updatePaymentStatus` (UPDATE by provider_reference). -/
def updatePaymentStatus (db : DB) (providerRef : String) (st : PayState) : DB :=
  let rows := db.payments.map
    (fun p => if p.provider_reference = providerRef then { p with pay_status := st } else p)
  { db with payments := rows }

/-- `UPDATE booking_participants SET payment_status = 'PAID' WHERE booking_id = ? AND is_initiator = 1`. -/
def markInitiatorPaid (db : DB) (bookingId : Nat) : DB :=
  let rows := db.participants.map
    (fun p => if p.booking_id = bookingId ∧ p.is_initiator = true then
      { p with payment_status := .paid } else p)
  { db with participants := rows }

/-- `setupBookingSplits` lifted to the database state. -/
def setupBookingSplitsDB (db : DB) (bookingId initiatorId : Nat) (inviteeIds : List Nat)
    (shareAmount : ℚ) : DB :=
  let rows := setupBookingSplits db.participants bookingId initiatorId inviteeIds shareAmount
  { db with participants := rows }

/-- The points deduction of the confirmation transaction (`if (points > 0)`):
wallet debit plus DEBIT ledger row. -/
def pointsStep (db : DB) (s : Session) : Except Err DB :=
  if s.points_to_deduct > 0 then
    match updateWalletBalance db s.user_id (-s.points_to_deduct) with
    | .error e => .error e
    | .ok d => createTransaction d s.user_id (-s.points_to_deduct) "DEBIT" "BOOKING_PAYMENT"
  else .ok db

/-- The owner revenue credit of the confirmation transaction
(`if (owner_id)`): wallet credit plus BOOKING_REVENUE ledger row. -/
def ownerCreditStep (db : DB) (s : Session) : Except Err DB :=
  match s.owner_id with
  | some ownerId =>
    match updateWalletBalance db ownerId s.total_amount with
    | .error e => .error e
    | .ok d => createTransaction d ownerId s.total_amount "CREDIT" "BOOKING_REVENUE"
  | none => .ok db

/-- The payment insert and the three status updates that confirm the
booking: `createPayment`, `updateBookingStatus CONFIRMED`,
`updatePaymentStatus SUCCEEDED`, and the initiator's `PAID` mark. -/
def finalizeSteps (db : DB) (s : Session) (bookingId : Nat) : DB :=
  markInitiatorPaid
    (updatePaymentStatus
      (updateBookingStatus
        (addPayment db ⟨bookingId, s.user_id, s.amount_total / 100, .pendingPmt, s.sid⟩)
        bookingId .confirmed)
      s.sid .succeeded)
    bookingId

/-- `handleCheckoutSuccess` (the new-booking path of the confirmation
callback): the idempotency lookup short-circuits to the already-created
booking; otherwise the session must be paid, the conflict is re-checked,
and — in one transaction — the booking, the initiator participant, the
points debit, the invitee splits, the payment row, the status updates and
the owner credit are all applied; any error rolls the transaction back. -/
def handleCheckoutSuccess (db : DB) (s : Session) : Except Err (DB × Nat) :=
  match getBookingByPaymentReference db s.sid with
  | some existing => .ok (db, existing.booking_id)
  | none =>
    if ¬s.paid = true then .error .paymentNotCompleted
    else if hasBookingConflict db s.venue_id s.booking_start s.booking_end then
      .error .slotTaken
    else
      match pointsStep
          (addParticipant (addBooking db (newBookingRow db s))
            ⟨freshBookingId db, s.user_id, s.share_amount, true, .pendingPay⟩) s with
      | .error e => .error e
      | .ok db3 =>
        match ownerCreditStep
            (finalizeSteps
              (setupBookingSplitsDB db3 (freshBookingId db) s.user_id s.invitees
                s.share_amount)
              s (freshBookingId db)) s with
        | .error e => .error e
        | .ok db9 => .ok (db9, freshBookingId db)

/-! ## Frame lemmas and list facts for the idempotency proof -/

/-- A successful wallet-balance update touches only the wallet table. -/
theorem updateWalletBalance_frame (db : DB) (u : Nat) (a : ℚ) (db2 : DB)
    (h : updateWalletBalance db u a = .ok db2) :
    db2.bookings = db.bookings ∧ db2.payments = db.payments ∧
      db2.participants = db.participants := by
  unfold updateWalletBalance at h
  repeat' split at h
  all_goals try exact Except.noConfusion h
  all_goals (obtain rfl := Except.ok.inj h; exact ⟨rfl, rfl, rfl⟩)

/-- A successful ledger append touches only the transaction log. -/
theorem createTransaction_frame (db : DB) (u : Nat) (a : ℚ) (d t : String) (db2 : DB)
    (h : createTransaction db u a d t = .ok db2) :
    db2.bookings = db.bookings ∧ db2.payments = db.payments ∧
      db2.participants = db.participants := by
  unfold createTransaction at h
  repeat' split at h
  all_goals try exact Except.noConfusion h
  all_goals (obtain rfl := Except.ok.inj h; exact ⟨rfl, rfl, rfl⟩)

/-- A successful points deduction touches only wallets and the ledger. -/
theorem pointsStep_frame (db : DB) (s : Session) (db2 : DB)
    (h : pointsStep db s = .ok db2) :
    db2.bookings = db.bookings ∧ db2.payments = db.payments ∧
      db2.participants = db.participants := by
  unfold pointsStep at h
  by_cases hp : s.points_to_deduct > 0
  · rw [if_pos hp] at h
    cases hw : updateWalletBalance db s.user_id (-s.points_to_deduct) with
    | error e => rw [hw] at h; exact Except.noConfusion h
    | ok d =>
      rw [hw] at h
      obtain ⟨h1, h2, h3⟩ := updateWalletBalance_frame _ _ _ _ hw
      obtain ⟨g1, g2, g3⟩ := createTransaction_frame _ _ _ _ _ _ h
      exact ⟨g1.trans h1, g2.trans h2, g3.trans h3⟩
  · rw [if_neg hp] at h
    obtain rfl := Except.ok.inj h
    exact ⟨rfl, rfl, rfl⟩

/-- A successful owner credit touches only wallets and the ledger. -/
theorem ownerCreditStep_frame (db : DB) (s : Session) (db2 : DB)
    (h : ownerCreditStep db s = .ok db2) :
    db2.bookings = db.bookings ∧ db2.payments = db.payments ∧
      db2.participants = db.participants := by
  unfold ownerCreditStep at h
  cases ho : s.owner_id with
  | none =>
    simp only [ho] at h
    obtain rfl := Except.ok.inj h
    exact ⟨rfl, rfl, rfl⟩
  | some ownerId =>
    simp only [ho] at h
    cases hw : updateWalletBalance db ownerId s.total_amount with
    | error e => rw [hw] at h; exact Except.noConfusion h
    | ok d =>
      rw [hw] at h
      obtain ⟨h1, h2, h3⟩ := updateWalletBalance_frame _ _ _ _ hw
      obtain ⟨g1, g2, g3⟩ := createTransaction_frame _ _ _ _ _ _ h
      exact ⟨g1.trans h1, g2.trans h2, g3.trans h3⟩

/-- Mapping a function that fixes every member is the identity. -/
theorem map_id_of_mem_eq {α : Type} (l : List α) (f : α → α) (h : ∀ x ∈ l, f x = x) :
    l.map f = l := by
  induction l with
  | nil => rfl
  | cons a t ih =>
    simp only [List.map_cons, h a (List.mem_cons_self a t)]
    rw [ih (fun x hx => h x (List.mem_cons_of_mem a hx))]

/-- `find?` skips a prefix with no matches. -/
theorem find?_append_of_none {α : Type} (l1 l2 : List α) (p : α → Bool)
    (h : ∀ x ∈ l1, ¬p x = true) : (l1 ++ l2).find? p = l2.find? p := by
  induction l1 with
  | nil => rfl
  | cons a t ih =>
    simp only [List.cons_append, List.find?]
    rw [Bool.eq_false_iff.mpr (h a (List.mem_cons_self a t))]
    exact ih (fun x hx => h x (List.mem_cons_of_mem a hx))

/-- A filter with no matches is empty. -/
theorem filter_eq_nil_of_none {α : Type} (l : List α) (p : α → Bool)
    (h : ∀ x ∈ l, ¬p x = true) : l.filter p = [] := by
  induction l with
  | nil => rfl
  | cons a t ih =>
    simp only [List.filter_cons, Bool.eq_false_iff.mpr (h a (List.mem_cons_self a t))]
    simp only [Bool.false_eq_true, if_false]
    exact ih (fun x hx => h x (List.mem_cons_of_mem a hx))

/-- Every member is bounded by the `foldr max` of the list. -/
theorem le_foldr_max (l : List Nat) (x : Nat) (hx : x ∈ l) : x ≤ l.foldr max 0 := by
  induction l with
  | nil => cases hx
  | cons a t ih =>
    rcases List.mem_cons.mp hx with rfl | h
    · exact le_max_left _ _
    · exact le_trans (ih h) (le_max_right _ _)

/-- No existing booking carries the fresh AUTO_INCREMENT id. -/
theorem freshBookingId_not_used (db : DB) (b : Booking) (hb : b ∈ db.bookings) :
    ¬b.booking_id = freshBookingId db := by
  intro hc
  have hle : b.booking_id ≤ maxBookingId db :=
    le_foldr_max _ _ (List.mem_map_of_mem (fun x => x.booking_id) hb)
  rw [hc] at hle
  exact absurd hle (by unfold freshBookingId; omega)

/-! ## Theorems for C6 -/

/-- C6: `confirmCheckout` is idempotent.  If no payment row for the
session id exists and the first call succeeds, returning booking `bid`,
then the state holds exactly one more booking and exactly one payment row
for that session id, and a second call returns the same booking with no
further writes. -/
theorem confirmCheckout_idempotent (db : DB) (s : Session) (db1 : DB) (bid : Nat)
    (hno : ∀ p ∈ db.payments, ¬p.provider_reference = s.sid)
    (hok : handleCheckoutSuccess db s = .ok (db1, bid)) :
    handleCheckoutSuccess db1 s = .ok (db1, bid) ∧
    db1.bookings.length = db.bookings.length + 1 ∧
    (db1.payments.filter (fun p => p.provider_reference = s.sid)).length = 1 := by
  have hfind0 : db.payments.find? (fun p => p.provider_reference = s.sid) = none := by
    apply List.find?_eq_none.mpr
    intro p hp
    simpa using hno p hp
  have hgb0 : getBookingByPaymentReference db s.sid = none := by
    unfold getBookingByPaymentReference
    rw [hfind0]
  simp only [handleCheckoutSuccess, hgb0] at hok
  by_cases hpaid : ¬s.paid = true
  · rw [if_pos hpaid] at hok
    exact absurd hok (by simp)
  rw [if_neg hpaid] at hok
  by_cases hconf : hasBookingConflict db s.venue_id s.booking_start s.booking_end = true
  · rw [if_pos hconf] at hok
    exact absurd hok (by simp)
  rw [if_neg hconf] at hok
  cases hps : pointsStep (addParticipant (addBooking db (newBookingRow db s))
      ⟨freshBookingId db, s.user_id, s.share_amount, true, .pendingPay⟩) s with
  | error e =>
    simp only [hps] at hok
    exact Except.noConfusion hok
  | ok db3 =>
  simp only [hps] at hok
  cases hoc : ownerCreditStep (finalizeSteps (setupBookingSplitsDB db3 (freshBookingId db)
      s.user_id s.invitees s.share_amount) s (freshBookingId db)) s with
  | error e =>
    simp only [hoc] at hok
    exact Except.noConfusion hok
  | ok db9 =>
  simp only [hoc] at hok
  have hpair := Except.ok.inj hok
  rw [Prod.mk.injEq] at hpair
  obtain ⟨hdb, hbid⟩ := hpair
  subst hdb
  subst hbid
  obtain ⟨hb3, hp3, _⟩ := pointsStep_frame _ _ _ hps
  have hb3b : db3.bookings = db.bookings ++ [newBookingRow db s] := hb3
  have hp3b : db3.payments = db.payments := hp3
  obtain ⟨hb9, hp9, _⟩ := ownerCreditStep_frame _ _ _ hoc
  have hpay : db9.payments = db.payments ++
      [⟨freshBookingId db, s.user_id, s.amount_total / 100, .succeeded, s.sid⟩] := by
    have h0 : db9.payments = ((db3.payments ++
        [(⟨freshBookingId db, s.user_id, s.amount_total / 100, .pendingPmt, s.sid⟩ : Payment)]).map
        (fun p : Payment => if p.provider_reference = s.sid then
          { p with pay_status := PayState.succeeded } else p)) := hp9
    rw [h0, hp3b, List.map_append]
    congr 1
    · exact map_id_of_mem_eq _ _ (fun p hp => if_neg (hno p hp))
    · simp
  have hbook : db9.bookings = db.bookings ++
      [⟨freshBookingId db, s.venue_id, s.court_id, s.user_id, s.booking_start, s.booking_end,
        s.total_amount, .confirmed, s.refund_percentage, s.hours_before_start⟩] := by
    have h0 : db9.bookings = (db3.bookings.map
        (fun b : Booking => if b.booking_id = freshBookingId db then
          { b with status := BStatus.confirmed } else b)) := hb9
    rw [h0, hb3b, List.map_append]
    congr 1
    · exact map_id_of_mem_eq _ _ (fun b hb => if_neg (freshBookingId_not_used db b hb))
    · simp [newBookingRow]
  have hfind9 : db9.payments.find? (fun p => p.provider_reference = s.sid) =
      some ⟨freshBookingId db, s.user_id, s.amount_total / 100, .succeeded, s.sid⟩ := by
    rw [hpay, find?_append_of_none _ _ _ (fun p hp => by simpa using hno p hp)]
    simp [List.find?]
  have hfindb : db9.bookings.find? (fun b => b.booking_id = freshBookingId db) =
      some ⟨freshBookingId db, s.venue_id, s.court_id, s.user_id, s.booking_start,
        s.booking_end, s.total_amount, .confirmed, s.refund_percentage,
        s.hours_before_start⟩ := by
    rw [hbook, find?_append_of_none _ _ _
      (fun b hb => by simpa using freshBookingId_not_used db b hb)]
    simp [List.find?]
  have hgb9 : getBookingByPaymentReference db9 s.sid =
      some ⟨freshBookingId db, s.venue_id, s.court_id, s.user_id, s.booking_start,
        s.booking_end, s.total_amount, .confirmed, s.refund_percentage,
        s.hours_before_start⟩ := by
    unfold getBookingByPaymentReference
    rw [hfind9]
    exact hfindb
  refine ⟨?_, ?_, ?_⟩
  · simp only [handleCheckoutSuccess, hgb9]
  · rw [hbook]
    simp
  · rw [hpay, List.filter_append,
      filter_eq_nil_of_none _ _ (fun p hp => by simpa using hno p hp)]
    simp

/-- Witness for C6: starting from an empty database, a paid session
confirms once; the conclusion of the idempotency theorem holds at the
resulting concrete state. -/
theorem confirmCheckout_idempotent_witness :
    handleCheckoutSuccess
      ⟨[], [⟨1, 1, none, 7, 600, 660, 1000, .confirmed, none, none⟩],
        [⟨1, 7, 1000, true, .paid⟩], [⟨1, 7, 1000, .succeeded, "s1"⟩], [], []⟩
      ⟨"s1", true, 100000, 1, none, 7, 600, 660, 1000, 1000, [], 0, none, none, none⟩ =
      .ok (⟨[], [⟨1, 1, none, 7, 600, 660, 1000, .confirmed, none, none⟩],
        [⟨1, 7, 1000, true, .paid⟩], [⟨1, 7, 1000, .succeeded, "s1"⟩], [], []⟩, 1) ∧
    (⟨[], [⟨1, 1, none, 7, 600, 660, 1000, .confirmed, none, none⟩],
        [⟨1, 7, 1000, true, .paid⟩], [⟨1, 7, 1000, .succeeded, "s1"⟩], [], []⟩ : DB).bookings.length =
      (⟨[], [], [], [], [], []⟩ : DB).bookings.length + 1 ∧
    ((⟨[], [⟨1, 1, none, 7, 600, 660, 1000, .confirmed, none, none⟩],
        [⟨1, 7, 1000, true, .paid⟩], [⟨1, 7, 1000, .succeeded, "s1"⟩], [], []⟩ : DB).payments.filter
      (fun p => p.provider_reference = "s1")).length = 1 :=
  confirmCheckout_idempotent ⟨[], [], [], [], [], []⟩
    ⟨"s1", true, 100000, 1, none, 7, 600, 660, 1000, 1000, [], 0, none, none, none⟩
    ⟨[], [⟨1, 1, none, 7, 600, 660, 1000, .confirmed, none, none⟩],
      [⟨1, 7, 1000, true, .paid⟩], [⟨1, 7, 1000, .succeeded, "s1"⟩], [], []⟩ 1
    (by decide) (by decide)

end PlayLink
